import Mathlib

/-!
Verification development for the InfluxDB telemetry pipeline of
`rl_framework/monitor/loglib/influxdb_handler.py`.

We shallowly embed the Python data model and the pipeline operations:
Python runtime values are the inductive `Value`; Python dicts are modelled
as insertion-ordered association lists with string keys (Python 3.7+ dicts
preserve insertion order and have unique keys); exceptions are modelled by
`Option`/`Except` result channels.
-/

/-- A Python runtime value as it occurs in this pipeline: `None`, `bool`,
`int`, `float` (modelled as an exact rational: the pipeline performs no
float arithmetic, only pass-through and equality), `str`, `list`, `tuple`,
`dict` (ordered association list, string keys), a numpy integer scalar, a
numpy float scalar, a 1-D numpy numeric array, and `obj s` for any other
object whose `str()` text is `s`. -/
inductive Value where
  | vnone : Value
  | vbool : Bool → Value
  | vint : Int → Value
  | vfloat : Rat → Value
  | vstr : String → Value
  | vlist : List Value → Value
  | vtuple : List Value → Value
  | vdict : List (String × Value) → Value
  | npInt : Int → Value
  | npFloat : Rat → Value
  | npArr : List Rat → Value
  | obj : String → Value
  deriving Repr

open Value

mutual
/-- `_to_builtin` from the source, mirrored case for case (the Python
`isinstance` chain dispatches on the runtime type, which our constructors
represent directly):
numpy scalar → `.item()`; number / str / bool / None → unchanged;
dict → recurse on the values, keys kept; non-string sequence →
rebuilt with the same container type, elements recursed; numpy
array → `.tolist()`; anything else → `str(obj)`. -/
def to_builtin : Value → Value
  | .npInt n => .vint n
  | .npFloat q => .vfloat q
  | .vint n => .vint n
  | .vfloat q => .vfloat q
  | .vbool b => .vbool b
  | .vstr s => .vstr s
  | .vnone => .vnone
  | .vdict kvs => .vdict (to_builtinKVs kvs)
  | .vlist xs => .vlist (to_builtinList xs)
  | .vtuple xs => .vtuple (to_builtinList xs)
  | .npArr qs => .vlist (qs.map Value.vfloat)
  | .obj s => .vstr s

def to_builtinList : List Value → List Value
  | [] => []
  | x :: xs => to_builtin x :: to_builtinList xs

def to_builtinKVs : List (String × Value) → List (String × Value)
  | [] => []
  | (k, v) :: kvs => (k, to_builtin v) :: to_builtinKVs kvs
end

/-! ## Python dict operations on ordered association lists

A Python dict has unique keys; our association lists represent one whenever
their keys are distinct (`d.get`, `d.pop`, `d[k] = v` below agree with the
Python operations on such lists). -/

/-- `d.get(k)` / `d[k]`: the value at key `k` (first binding). -/
def dictGet (kvs : List (String × Value)) (k : String) : Option Value :=
  (kvs.find? (fun kv => kv.1 = k)).map (·.2)

/-- The bindings remaining after `d.pop(k, ...)` removed key `k`. -/
def dictErase (kvs : List (String × Value)) (k : String) :
    List (String × Value) :=
  kvs.filter (fun kv => ¬ kv.1 = k)

/-- `d[k] = v`: overwrite in place when the key exists (a Python dict keeps
the original insertion position), append otherwise. -/
def dictSet (kvs : List (String × Value)) (k : String) (v : Value) :
    List (String × Value) :=
  if kvs.any (fun kv => kv.1 = k) then
    kvs.map (fun kv => if kv.1 = k then (k, v) else kv)
  else
    kvs ++ [(k, v)]

/-- `list(d.keys())`. -/
def dictKeys (kvs : List (String × Value)) : List String := kvs.map (·.1)

mutual
/-- Decides whether a value is built only from `None`, booleans, numbers,
strings, and nested dicts / ordered sequences of these (the "primitive-only"
inputs of the spec's normalizer round-trip property). -/
def primOnly : Value → Bool
  | .vnone => true
  | .vbool _ => true
  | .vint _ => true
  | .vfloat _ => true
  | .vstr _ => true
  | .vlist xs => primOnlyList xs
  | .vtuple xs => primOnlyList xs
  | .vdict kvs => primOnlyKVs kvs
  | .npInt _ => false
  | .npFloat _ => false
  | .npArr _ => false
  | .obj _ => false

def primOnlyList : List Value → Bool
  | [] => true
  | x :: xs => primOnly x && primOnlyList xs

def primOnlyKVs : List (String × Value) → Bool
  | [] => true
  | (_, v) :: kvs => primOnly v && primOnlyKVs kvs
end

/-- Python truthiness (`if x:`) for the values of this model. A value
popped out of a `dict` produced by `ast.literal_eval` is always a builtin,
so the numpy cases are unreachable at the one call site (`if role:`); they
are given numpy's value-based truthiness for totality. -/
def pyTruthy : Value → Bool
  | .vnone => false
  | .vbool b => b
  | .vint n => n ≠ 0
  | .vfloat q => q ≠ 0
  | .vstr s => s ≠ ""
  | .vlist xs => ¬ xs.isEmpty
  | .vtuple xs => ¬ xs.isEmpty
  | .vdict kvs => ¬ kvs.isEmpty
  | .npInt n => n ≠ 0
  | .npFloat q => q ≠ 0
  | .npArr qs => ¬ qs.isEmpty
  | .obj _ => true

/-! ## Python `str()` / `repr()` and `ast.literal_eval`

The pipeline prints values (`QueueHandler.prepare` stores
`str(record.msg)`, the actor formatter stores `str(actor_id)`) and parses
them back (`ast.literal_eval(record.getMessage())`). Approximations, noted
where they occur: Python renders binary floats as their shortest
round-tripping decimal, which we stand in for by the rational's own
rendering (no claim inspects a float's text), and embedded quotes inside a
string are not escaped. -/

mutual
/-- Python `repr()`: strings quoted, containers rendered recursively
(`\x7b`/`\x7d` denote the brace characters of a dict rendering). -/
def pyRepr : Value → String
  | .vnone => "None"
  | .vbool b => cond b "True" "False"
  | .vint n => toString n
  | .vfloat q => toString q
  | .vstr s => "\x27" ++ s ++ "\x27"
  | .vlist xs => "[" ++ pyReprElems xs ++ "]"
  | .vtuple xs =>
      "(" ++ pyReprElems xs ++ (if xs.length = 1 then ",)" else ")")
  | .vdict kvs => "\x7b" ++ pyReprKVs kvs ++ "\x7d"
  | .npInt n => toString n
  | .npFloat q => toString q
  | .npArr qs => "array([" ++ String.intercalate ", " (qs.map toString) ++ "])"
  | .obj s => s

def pyReprElems : List Value → String
  | [] => ""
  | [x] => pyRepr x
  | x :: xs => pyRepr x ++ ", " ++ pyReprElems xs

def pyReprKVs : List (String × Value) → String
  | [] => ""
  | [(k, v)] => "\x27" ++ k ++ "\x27: " ++ pyRepr v
  | (k, v) :: kvs =>
      "\x27" ++ k ++ "\x27: " ++ pyRepr v ++ ", " ++ pyReprKVs kvs
end

/-- Python `str()`: the text itself for a string, element-wise (without
commas) for a numpy array, `repr()` for everything else. -/
def pyStr : Value → String
  | .vstr s => s
  | .npArr qs => "[" ++ String.intercalate " " (qs.map toString) ++ "]"
  | v => pyRepr v

mutual
/-- Models `ast.literal_eval` applied to the `repr()` rendering of a value
(which is how every element nested inside a printed container was
rendered): a value printed in literal syntax parses back equal; numpy
scalars print as bare numbers and parse to the corresponding builtin; a
numpy array prints as `array(...)` / without commas and an arbitrary object
prints arbitrary non-literal text, so `literal_eval` raises (`none`). -/
def literalEvalElem : Value → Option Value
  | .vnone => some .vnone
  | .vbool b => some (.vbool b)
  | .vint n => some (.vint n)
  | .vfloat q => some (.vfloat q)
  | .vstr s => some (.vstr s)
  | .vlist xs => (literalEvalElems xs).map Value.vlist
  | .vtuple xs => (literalEvalElems xs).map Value.vtuple
  | .vdict kvs => (literalEvalElemKVs kvs).map Value.vdict
  | .npInt n => some (.vint n)
  | .npFloat q => some (.vfloat q)
  | .npArr _ => Option.none
  | .obj _ => Option.none

def literalEvalElems : List Value → Option (List Value)
  | [] => some []
  | x :: xs =>
      match literalEvalElem x, literalEvalElems xs with
      | some y, some ys => some (y :: ys)
      | _, _ => Option.none

def literalEvalElemKVs : List (String × Value) →
    Option (List (String × Value))
  | [] => some []
  | (k, v) :: kvs =>
      match literalEvalElem v, literalEvalElemKVs kvs with
      | some w, some ws => some ((k, w) :: ws)
      | _, _ => Option.none
end

/-- Models `ast.literal_eval(str(v))`. The one difference from
`literalEvalElem` is the top level: `str()` of a bare string is the
unquoted text, which is not in general a Python literal; parsing arbitrary
strings is not modelled (`none`) — in the pipeline `literal_eval` only ever
receives the `str()` of a payload, and payloads that are themselves strings
are rejected by the filter before any formatter runs. -/
def literalEvalOfStr : Value → Option Value
  | .vstr _ => Option.none
  | v => literalEvalElem v

/-! ## Log records, the filter, and the queue preparation step -/

/-- The `msg` attribute of a log record as this pipeline observes it:
either the original Python object handed over by the producer (`val v`), or
— after `QueueHandler.prepare` replaced it — the string `str(v)` printed
from the original payload `v` (`strOf v`). Carrying the pre-image `v`
instead of opaque printed text is what lets the model state exactly which
value `ast.literal_eval` recovers. -/
inductive RecMsg where
  | val : Value → RecMsg
  | strOf : Value → RecMsg
  deriving Repr

/-- `QueueHandler.prepare`: the record is formatted with the default
formatter (no formatter is set on the queue handler), which returns
`record.getMessage() = str(record.msg)` (no `args` are used by this
producer), and the string replaces `record.msg`. Preparing a record whose
`msg` is already a string keeps the same string (`str()` is the identity
on strings), so the pre-image is preserved. -/
def queueHandlerPrepare : RecMsg → RecMsg
  | .val v => .strOf v
  | .strOf v => .strOf v

/-- `ast.literal_eval(record.getMessage())`: `getMessage()` returns
`str(record.msg)`, and for a prepared record whose `msg` is already the
printed string `str(v)`, `str()` is the identity on it — both cases
evaluate `literal_eval` on the `str()` rendering of the underlying
payload. -/
def literalEvalGetMessage : RecMsg → Option Value
  | .val v => literalEvalOfStr v
  | .strOf v => literalEvalOfStr v

/-- `logging.Filter.filter` for a base filter constructed with name
`fname`: an empty name matches every record; otherwise the record's logger
name must equal the filter name or extend it as a dotted child
(`record.name.find(self.name, 0, self.nlen) != 0` checks that the name is a
prefix, and the following character must be a dot). -/
def loggingFilterBase (fname recName : String) : Bool :=
  if fname.length = 0 then true
  else if fname = recName then true
  else if ¬ recName.startsWith fname then false
  else (recName.toList.get? fname.length) == some '.'

/-- `InfluxdbMonitorFilter.filter`: admit only records whose `msg` is a
Python dict, deferring to the base class filter (the source constructs the
filter with the default empty name) when it is; reject everything else. -/
def influxdbMonitorFilter (m : RecMsg) (recName : String) : Bool :=
  match m with
  | .val (.vdict _) => loggingFilterBase "" recName
  | _ => false

/-! ## The two point formatters

Each formatter owns one mutable `_json_body` dict, created in `__init__`
and mutated and returned by every `format` call; we model it as an explicit
state threaded through `format`. The `__init__` subprocess probes
(`nvidia-smi -L`, `hostname`) are environment inputs, passed in as the
observed return code and stdout texts. -/

/-- The formatter's `_json_body`: measurement name, tag dict, and the
`"fields"` entry (absent until the first `format` call; not necessarily a
dict — `format` stores whatever `literal_eval` produced). -/
structure JsonBody where
  measurement : String
  tags : List (String × Value)
  fields : Option Value
  deriving Repr

/-- Python `str.strip()` with no arguments: drop whitespace characters
from both ends. -/
def pyStrip (s : String) : String :=
  String.mk
    (((s.toList.dropWhile Char.isWhitespace).reverse.dropWhile
        Char.isWhitespace).reverse)

/-- `InfluxdbMonitorFormatter.__init__`: `is_gpu` holds iff the
`nvidia-smi -L` probe exited 0 with non-empty stdout; the hostname is the
`hostname` probe's stdout stripped; `_json_body` starts with the fixed
measurement `"<gpu|cpu>_ip_info"` and the two static tags. -/
def mkInfluxdbMonitorFormatter (nvidiaRc : Int)
    (nvidiaOut hostnameOut : String) : JsonBody :=
  let is_gpu : Bool := nvidiaRc = 0 ∧ nvidiaOut ≠ ""
  let hostname := pyStrip hostnameOut
  { measurement := if is_gpu then "gpu_ip_info" else "cpu_ip_info"
    tags := [("ip_port", .vstr hostname),
             ("type", .vstr (if is_gpu then "gpu" else "cpu"))]
    fields := Option.none }

/-- The `msg_dict` computed at the top of `InfluxdbMonitorFormatter.format`:
when `record.msg` is a dict take it directly (`.copy()`), otherwise fall
back to `ast.literal_eval(record.getMessage())` (a raise is `none`). -/
def formatPayload (m : RecMsg) : Option Value :=
  match m with
  | .val (.vdict kvs) => some (.vdict kvs)
  | mm => literalEvalGetMessage mm

/-- `InfluxdbMonitorFormatter.format` as a state transition on the shared
`_json_body`: obtain `msg_dict` (see `formatPayload`), normalize it with
`_to_builtin`, store the result under `"fields"` and return the (shared,
mutated) `_json_body`. -/
def influxdbMonitorFormat (st : JsonBody) (m : RecMsg) :
    Option (JsonBody × JsonBody) :=
  match formatPayload m with
  | Option.none => Option.none
  | some d =>
      let st1 := { st with fields := some (to_builtin d) }
      some (st1, st1)

/-- `ActorMetricsFormatter.__init__`: run the parent constructor, then
overwrite the measurement with the fixed `"actor_metrics"`. -/
def mkActorMetricsFormatter (nvidiaRc : Int)
    (nvidiaOut hostnameOut : String) : JsonBody :=
  { mkInfluxdbMonitorFormatter nvidiaRc nvidiaOut hostnameOut with
      measurement := "actor_metrics" }

/-- The body of `ActorMetricsFormatter.format` after the `literal_eval`
line, applied to the parsed dict `kvs`: `pop` the keys `role` and
`actor_id` with default `None`; promote a truthy `role` into
`tags["role"]` and a non-`None` `actor_id` into `tags["actor_id"]` as
`str(actor_id)`; store the remaining dict under `"fields"` in the shared
`_json_body`. -/
def actorPromote (st : JsonBody) (kvs : List (String × Value)) : JsonBody :=
  let role := (dictGet kvs "role").getD .vnone
  let kvs1 := dictErase kvs "role"
  let actor_id := (dictGet kvs1 "actor_id").getD .vnone
  let kvs2 := dictErase kvs1 "actor_id"
  let tags1 := if pyTruthy role then dictSet st.tags "role" role
               else st.tags
  let tags2 := match actor_id with
    | .vnone => tags1
    | a => dictSet tags1 "actor_id" (.vstr (pyStr a))
  { st with tags := tags2, fields := some (.vdict kvs2) }

/-- `ActorMetricsFormatter.format`: parse `record.getMessage()` with
`ast.literal_eval` (a raise, or a parse result that is not a dict — whose
`.pop` then raises — is `none`), run the promotion body (`actorPromote`)
on the shared `_json_body`, and return it. -/
def actorMetricsFormat (st : JsonBody) (m : RecMsg) :
    Option (JsonBody × JsonBody) :=
  match literalEvalGetMessage m with
  | some (.vdict kvs) => some (actorPromote st kvs, actorPromote st kvs)
  | _ => Option.none

/-! ## The bounded relay queue and the producer-facing handler -/

/-- The `queue.Queue(maxsize)` between producer and consumer: FIFO list of
pending records plus the configured bound (a non-positive `maxsize` means
unbounded, as in `queue.Queue`). -/
structure RelayQueue where
  maxsize : Int
  items : List RecMsg
  deriving Repr

/-- `Queue.put_nowait`: `Full` (an exception, the `.error` branch) when a
positive bound is reached, otherwise append at the tail. -/
def putNowait (q : RelayQueue) (m : RecMsg) : Except String RelayQueue :=
  if 0 < q.maxsize ∧ q.maxsize ≤ (q.items.length : Int) then
    .error "queue.Full"
  else .ok { q with items := q.items ++ [m] }

/-- What one producer-side `submit` observed. -/
inductive SubmitOutcome where
  | rejected : SubmitOutcome
  | enqueued : SubmitOutcome
  | droppedFull : SubmitOutcome
  deriving Repr, DecidableEq

/-- `QueueHandler.emit`: `try: self.enqueue(self.prepare(record)) except
Exception: self.handleError(record)` — the `Full` raised by a bounded full
queue is caught and reported to local diagnostics only. -/
def queueHandlerEmit (q : RelayQueue) (m : RecMsg) :
    RelayQueue × SubmitOutcome :=
  match putNowait q (queueHandlerPrepare m) with
  | .ok q1 => (q1, .enqueued)
  | .error _ => (q, .droppedFull)

/-- `InfluxdbMonitorHandler.emit(record)` = `self._queue_handler.handle(record)`:
run the handler's filters (the attached `InfluxdbMonitorFilter`); if the
record passes, run `QueueHandler.emit` under the handler lock. The
`Except` channel is the Python exception channel of the whole call: the
`.error` branch is unreachable because every failure point (admission, a
full queue, preparation) is either a plain `False` return or caught inside
`QueueHandler.emit`. -/
def handlerSubmit (q : RelayQueue) (m : RecMsg) (recName : String) :
    Except String (RelayQueue × SubmitOutcome) :=
  if influxdbMonitorFilter m recName then
    match queueHandlerEmit q m with
    | (q1, out) => .ok (q1, out)
  else .ok (q, .rejected)

/-! ## The sink writer: `InfluxdbMonitorHandlerInner.emit`

The InfluxDB client is external; its behaviour during one `emit` call is an
input `beh : Nat → WriteOutcome`, the outcome of the n-th `write_points`
attempt of that call. The client handle itself is observable only through
how many times it was recreated. -/

/-- Outcome of one `write_points` call on the external sink. -/
inductive WriteOutcome where
  | ok : WriteOutcome
  | fail : String → WriteOutcome

/-- `InfluxdbMonitorHandlerInner`'s own state: the endpoint fields fixed in
`__init__` and the number of clients created so far (`__init__` creates the
first; every caught failure closes and recreates one). -/
structure InnerHandler where
  ip : String
  port : String
  database : String
  clientGen : Nat
  deriving Repr

/-- A line printed by `emit` to local diagnostics: the per-attempt target
line (endpoint, database, measurement, tags, field-key list — no field
values), or the caught-exception line. -/
inductive Diag where
  | attemptLine (ip port db meas : String) (tags : List (String × Value))
      (fieldKeys : List String) : Diag
  | errLine (e : String) : Diag
  deriving Repr

/-- `list(msg.get("fields", dict()).keys())` inside the diagnostic print:
an absent `"fields"` gives the empty list, a non-dict `"fields"` value
makes `.keys()` raise `AttributeError` (`none`). -/
def fieldKeysOf : Option Value → Option (List String)
  | Option.none => some []
  | some (.vdict kvs) => some (dictKeys kvs)
  | some _ => Option.none

/-- Everything one `InfluxdbMonitorHandlerInner.emit` call did: final
formatter state and handler state, number of `write_points` attempts,
number of client recreations, diagnostics printed, whether a write
succeeded, the exception escaping the call (`raised`, always `none`: the
loop body is wrapped in a broad `except`) and the error value returned to
the caller (`returnedErr`, always `none`: the Python method returns
`None` on every path). -/
structure EmitResult where
  fmtState : JsonBody
  handler : InnerHandler
  writeAttempts : Nat
  recreates : Nat
  diag : List Diag
  delivered : Bool
  raised : Option String
  returnedErr : Option String
  deriving Repr

/-- The body of `emit`'s `for _ in range(2)` loop, one constructor case per
remaining iteration. Each iteration formats the record, prints the target
diagnostic, attempts `write_points` and `break`s on success; any exception
in the iteration (a format raise, the `.keys()` raise in the print, or a
failed write) is caught by the broad `except`, printed, and answered by
closing and recreating the client before the next iteration — after the
last iteration the loop just falls through and `emit` returns `None`. -/
def emitLoop (fmt : JsonBody → RecMsg → Option (JsonBody × JsonBody))
    (beh : Nat → WriteOutcome) (m : RecMsg) :
    Nat → JsonBody → InnerHandler → Nat → Nat → List Diag → EmitResult
  | 0, st, h, attempts, recreates, diag =>
      { fmtState := st, handler := h, writeAttempts := attempts,
        recreates := recreates, diag := diag, delivered := false,
        raised := Option.none, returnedErr := Option.none }
  | fuel + 1, st, h, attempts, recreates, diag =>
      match fmt st m with
      | Option.none =>
          emitLoop fmt beh m fuel st { h with clientGen := h.clientGen + 1 }
            attempts (recreates + 1) (diag ++ [.errLine "format raised"])
      | some (st1, msg) =>
          match fieldKeysOf msg.fields with
          | Option.none =>
              emitLoop fmt beh m fuel st1
                { h with clientGen := h.clientGen + 1 }
                attempts (recreates + 1)
                (diag ++ [.errLine "AttributeError: keys"])
          | some fks =>
              let diag1 := diag ++
                [.attemptLine h.ip h.port h.database msg.measurement
                  msg.tags fks]
              match beh attempts with
              | .ok =>
                  { fmtState := st1, handler := h,
                    writeAttempts := attempts + 1, recreates := recreates,
                    diag := diag1, delivered := true,
                    raised := Option.none, returnedErr := Option.none }
              | .fail e =>
                  emitLoop fmt beh m fuel st1
                    { h with clientGen := h.clientGen + 1 }
                    (attempts + 1) (recreates + 1)
                    (diag1 ++ [.errLine e])

/-- `InfluxdbMonitorHandlerInner.emit`: run the two-iteration loop with the
handler's configured formatter. -/
def innerHandlerEmit (fmt : JsonBody → RecMsg → Option (JsonBody × JsonBody))
    (beh : Nat → WriteOutcome) (st : JsonBody) (h : InnerHandler)
    (m : RecMsg) : EmitResult :=
  emitLoop fmt beh m 2 st h 0 0 []


/-! ## Lemmas about the dict operations -/

theorem dictGet_nil (k : String) : dictGet [] k = Option.none := rfl

theorem dictGet_cons (kv : String × Value) (rest : List (String × Value))
    (k : String) :
    dictGet (kv :: rest) k =
      if kv.1 = k then some kv.2 else dictGet rest k := by
  by_cases h : kv.1 = k <;> simp [dictGet, List.find?, h]

theorem dictKeys_cons (kv : String × Value) (rest : List (String × Value)) :
    dictKeys (kv :: rest) = kv.1 :: dictKeys rest := rfl

theorem dictGet_eq_none_of_not_mem (kvs : List (String × Value)) (k : String)
    (h : k ∉ dictKeys kvs) : dictGet kvs k = Option.none := by
  induction kvs with
  | nil => rfl
  | cons kv rest ih =>
      rw [dictKeys_cons, List.mem_cons] at h
      push_neg at h
      have h1 : ¬ kv.1 = k := fun hk => h.1 hk.symm
      rw [dictGet_cons, if_neg h1]
      exact ih h.2

theorem notMem_dictKeys_erase_self (kvs : List (String × Value))
    (k : String) : k ∉ dictKeys (dictErase kvs k) := by
  intro h
  rcases List.mem_map.mp h with ⟨kv, hkv, hk⟩
  rcases List.mem_filter.mp hkv with ⟨_, hp⟩
  simp at hp
  exact hp hk

theorem notMem_dictKeys_erase (kvs : List (String × Value)) (k k' : String)
    (h : k ∉ dictKeys kvs) : k ∉ dictKeys (dictErase kvs k') := by
  intro hmem
  rcases List.mem_map.mp hmem with ⟨kv, hkv, hk⟩
  exact h (List.mem_map.mpr ⟨kv, (List.mem_filter.mp hkv).1, hk⟩)

theorem dictGet_erase_other (kvs : List (String × Value)) (k k' : String)
    (h : ¬ k' = k) : dictGet (dictErase kvs k') k = dictGet kvs k := by
  induction kvs with
  | nil => rfl
  | cons kv rest ih =>
      by_cases hk : kv.1 = k'
      · rw [show dictErase (kv :: rest) k' = dictErase rest k' by
          simp [dictErase, hk]]
        rw [ih, dictGet_cons]
        have h2 : ¬ kv.1 = k := by rw [hk]; exact h
        rw [if_neg h2]
      · rw [show dictErase (kv :: rest) k' = kv :: dictErase rest k' by
          simp [dictErase, hk]]
        rw [dictGet_cons, dictGet_cons, ih]

theorem dictKeys_map_overwrite (kvs : List (String × Value)) (k : String)
    (v : Value) :
    dictKeys (kvs.map (fun kv => if kv.1 = k then (k, v) else kv)) =
      dictKeys kvs := by
  induction kvs with
  | nil => rfl
  | cons kv rest ih =>
      rw [List.map_cons, dictKeys_cons, dictKeys_cons, ih]
      by_cases h : kv.1 = k
      · rw [if_pos h]; simp [h]
      · rw [if_neg h]

theorem dictGet_map_overwrite (kvs : List (String × Value)) (k : String)
    (v : Value) (hany : kvs.any (fun kv => kv.1 = k) = true) :
    dictGet (kvs.map (fun kv => if kv.1 = k then (k, v) else kv)) k
      = some v := by
  induction kvs with
  | nil => simp at hany
  | cons kv rest ih =>
      rw [List.map_cons, dictGet_cons]
      by_cases h : kv.1 = k
      · rw [if_pos h]; simp
      · rw [if_neg h]
        have hrest : rest.any (fun kv => kv.1 = k) = true := by
          simpa [List.any_cons, h] using hany
        have h2 : ¬ (kv.1 = k) := h
        simp only [if_neg h2]
        exact ih hrest

theorem dictGet_map_overwrite_other (kvs : List (String × Value))
    (k k' : String) (v : Value) (h : ¬ k' = k) :
    dictGet (kvs.map (fun kv => if kv.1 = k' then (k', v) else kv)) k
      = dictGet kvs k := by
  induction kvs with
  | nil => rfl
  | cons kv rest ih =>
      rw [List.map_cons, dictGet_cons, dictGet_cons]
      by_cases hk : kv.1 = k'
      · rw [if_pos hk]
        have h2 : ¬ kv.1 = k := by rw [hk]; exact h
        simp only [h, if_false, h2, ih]
      · rw [if_neg hk]
        by_cases h2 : kv.1 = k <;> simp only [h2, if_true, if_false, ih]

theorem dictGet_append_single_of_none (kvs : List (String × Value))
    (k : String) (v : Value)
    (hnone : kvs.any (fun kv => kv.1 = k) = false) :
    dictGet (kvs ++ [(k, v)]) k = some v := by
  induction kvs with
  | nil => simp [dictGet_cons]
  | cons kv rest ih =>
      simp only [List.any_cons, Bool.or_eq_false_iff,
        decide_eq_false_iff_not] at hnone
      rw [List.cons_append, dictGet_cons, if_neg hnone.1]
      exact ih hnone.2

theorem dictGet_append_single_other (kvs : List (String × Value))
    (k k' : String) (v : Value) (h : ¬ k' = k) :
    dictGet (kvs ++ [(k', v)]) k = dictGet kvs k := by
  induction kvs with
  | nil =>
      rw [List.nil_append, dictGet_cons, if_neg h]
  | cons kv rest ih =>
      rw [List.cons_append, dictGet_cons, dictGet_cons, ih]

theorem dictGet_set_self (kvs : List (String × Value)) (k : String)
    (v : Value) : dictGet (dictSet kvs k v) k = some v := by
  unfold dictSet
  by_cases hany : kvs.any (fun kv => kv.1 = k) = true
  · rw [if_pos hany]
    exact dictGet_map_overwrite kvs k v hany
  · rw [if_neg hany]
    refine dictGet_append_single_of_none kvs k v ?_
    simp only [Bool.not_eq_true] at hany
    exact hany

theorem dictGet_set_other (kvs : List (String × Value)) (k k' : String)
    (v : Value) (h : ¬ k' = k) :
    dictGet (dictSet kvs k' v) k = dictGet kvs k := by
  unfold dictSet
  by_cases hany : kvs.any (fun kv => kv.1 = k') = true
  · rw [if_pos hany]
    exact dictGet_map_overwrite_other kvs k k' v h
  · rw [if_neg hany]
    exact dictGet_append_single_other kvs k k' v h

theorem mem_dictKeys_set (kvs : List (String × Value)) (k k' : String)
    (v : Value) (h : k ∈ dictKeys kvs) :
    k ∈ dictKeys (dictSet kvs k' v) := by
  unfold dictSet
  by_cases hany : kvs.any (fun kv => kv.1 = k') = true
  · rw [if_pos hany, dictKeys_map_overwrite]
    exact h
  · rw [if_neg hany]
    unfold dictKeys at h ⊢
    rw [List.map_append]
    exact List.mem_append_left _ h

/-! ## Lemmas about the normalizer -/

mutual
theorem to_builtin_primOnly_id :
    ∀ (v : Value), primOnly v = true → to_builtin v = v
  | .vnone, _ => rfl
  | .vbool _, _ => rfl
  | .vint _, _ => rfl
  | .vfloat _, _ => rfl
  | .vstr _, _ => rfl
  | .vlist xs, h => by
      rw [to_builtin, to_builtinList_primOnly_id xs (by simpa [primOnly] using h)]
  | .vtuple xs, h => by
      rw [to_builtin, to_builtinList_primOnly_id xs (by simpa [primOnly] using h)]
  | .vdict kvs, h => by
      rw [to_builtin, to_builtinKVs_primOnly_id kvs (by simpa [primOnly] using h)]

theorem to_builtinList_primOnly_id :
    ∀ (xs : List Value), primOnlyList xs = true → to_builtinList xs = xs
  | [], _ => rfl
  | x :: xs, h => by
      have h1 : primOnly x = true ∧ primOnlyList xs = true := by
        simpa [primOnlyList, Bool.and_eq_true] using h
      rw [to_builtinList, to_builtin_primOnly_id x h1.1,
        to_builtinList_primOnly_id xs h1.2]

theorem to_builtinKVs_primOnly_id :
    ∀ (kvs : List (String × Value)), primOnlyKVs kvs = true →
      to_builtinKVs kvs = kvs
  | [], _ => rfl
  | (k, v) :: kvs, h => by
      have h1 : primOnly v = true ∧ primOnlyKVs kvs = true := by
        simpa [primOnlyKVs, Bool.and_eq_true] using h
      rw [to_builtinKVs, to_builtin_primOnly_id v h1.1,
        to_builtinKVs_primOnly_id kvs h1.2]
end

theorem dictGet_to_builtinKVs (kvs : List (String × Value)) (k : String) :
    dictGet (to_builtinKVs kvs) k = (dictGet kvs k).map to_builtin := by
  induction kvs with
  | nil => rfl
  | cons kv rest ih =>
      rcases kv with ⟨k', v'⟩
      rw [to_builtinKVs, dictGet_cons, dictGet_cons]
      by_cases h : k' = k
      · simp only [h, if_pos rfl]
        rfl
      · have h1 : ¬ (k', v').1 = k := h
        have h2 : ¬ ((k', to_builtin v') : String × Value).1 = k := h
        rw [if_neg h2, if_neg h1, ih]

theorem to_builtinKVs_length (kvs : List (String × Value)) :
    (to_builtinKVs kvs).length = kvs.length := by
  induction kvs with
  | nil => rfl
  | cons kv rest ih => rcases kv with ⟨k, v⟩; rw [to_builtinKVs]; simp [ih]

theorem literalEvalElemKVs_length (kvs ws : List (String × Value))
    (h : literalEvalElemKVs kvs = some ws) : ws.length = kvs.length := by
  induction kvs generalizing ws with
  | nil =>
      rw [literalEvalElemKVs] at h
      cases h
      rfl
  | cons kv rest ih =>
      rcases kv with ⟨k, v⟩
      rw [literalEvalElemKVs] at h
      cases hv : literalEvalElem v with
      | none => rw [hv] at h; cases h
      | some w =>
          cases hrest : literalEvalElemKVs rest with
          | none => rw [hv, hrest] at h; cases h
          | some ws1 =>
              rw [hv, hrest] at h
              cases h
              simp [ih ws1 hrest]

/-! ## Lemmas about the sink writer loop -/

set_option maxRecDepth 4096 in
theorem emitLoop_silent (fmt : JsonBody → RecMsg → Option (JsonBody × JsonBody))
    (beh : Nat → WriteOutcome) (m : RecMsg) :
    ∀ (fuel : Nat) (st : JsonBody) (h : InnerHandler) (a r : Nat)
      (diag : List Diag),
      (emitLoop fmt beh m fuel st h a r diag).raised = Option.none ∧
      (emitLoop fmt beh m fuel st h a r diag).returnedErr = Option.none ∧
      (emitLoop fmt beh m fuel st h a r diag).writeAttempts ≤ a + fuel := by
  intro fuel
  induction fuel with
  | zero => intro st h a r diag; exact ⟨rfl, rfl, by simp [emitLoop]⟩
  | succ n ih =>
      intro st h a r diag
      cases hf : fmt st m with
      | none =>
          have h3 := ih st { h with clientGen := h.clientGen + 1 } a (r + 1)
            (diag ++ [.errLine "format raised"])
          simp only [emitLoop, hf]
          refine ⟨h3.1, h3.2.1, ?_⟩
          have h4 := h3.2.2
          omega
      | some p =>
          rcases p with ⟨st1, msg⟩
          cases hk : fieldKeysOf msg.fields with
          | none =>
              have h3 := ih st1 { h with clientGen := h.clientGen + 1 } a
                (r + 1) (diag ++ [.errLine "AttributeError: keys"])
              simp only [emitLoop, hf, hk]
              refine ⟨h3.1, h3.2.1, ?_⟩
              have h4 := h3.2.2
              omega
          | some fks =>
              cases hb : beh a with
              | ok =>
                  simp only [emitLoop, hf, hk, hb]
                  refine ⟨trivial, trivial, ?_⟩
                  omega
              | fail e =>
                  have h3 := ih st1 { h with clientGen := h.clientGen + 1 }
                    (a + 1) (r + 1)
                    ((diag ++ [.attemptLine h.ip h.port h.database
                      msg.measurement msg.tags fks]) ++ [.errLine e])
                  simp only [emitLoop, hf, hk, hb]
                  refine ⟨h3.1, h3.2.1, ?_⟩
                  have h4 := h3.2.2
                  omega

/-! ## Lemmas about the actor-metrics promotion body -/

theorem actorPromote_fields (st : JsonBody) (kvs : List (String × Value)) :
    (actorPromote st kvs).fields =
      some (.vdict (dictErase (dictErase kvs "role") "actor_id")) := rfl

theorem actorPromote_measurement (st : JsonBody)
    (kvs : List (String × Value)) :
    (actorPromote st kvs).measurement = st.measurement := rfl

theorem dictGet_match_aid_other (t : List (String × Value)) (a : Value)
    (k : String) (hk : ¬ "actor_id" = k) :
    dictGet (match a with
      | .vnone => t
      | a => dictSet t "actor_id" (.vstr (pyStr a))) k = dictGet t k := by
  cases a
  case vnone => rfl
  all_goals exact dictGet_set_other t k "actor_id" _ hk

theorem actorPromote_get_role_truthy (st : JsonBody)
    (kvs : List (String × Value)) (r : Value)
    (hr : dictGet kvs "role" = some r) (ht : pyTruthy r = true) :
    dictGet (actorPromote st kvs).tags "role" = some r := by
  unfold actorPromote
  simp only [hr, Option.getD_some, ht, if_true]
  rw [dictGet_match_aid_other _ _ _ (by decide)]
  exact dictGet_set_self st.tags "role" r

theorem actorPromote_get_role_absent (st : JsonBody)
    (kvs : List (String × Value)) (h : "role" ∉ dictKeys kvs) :
    dictGet (actorPromote st kvs).tags "role" = dictGet st.tags "role" := by
  unfold actorPromote
  simp only [dictGet_eq_none_of_not_mem kvs "role" h, Option.getD_none]
  simp only [show pyTruthy .vnone = false from rfl, Bool.false_eq_true,
    if_false]
  exact dictGet_match_aid_other _ _ _ (by decide)

theorem actorPromote_get_aid (st : JsonBody) (kvs : List (String × Value))
    (a : Value) (ha : dictGet kvs "actor_id" = some a) (hne : a ≠ .vnone) :
    dictGet (actorPromote st kvs).tags "actor_id"
      = some (.vstr (pyStr a)) := by
  unfold actorPromote
  have h1 : dictGet (dictErase kvs "role") "actor_id" = some a := by
    rw [dictGet_erase_other kvs "actor_id" "role" (by decide)]
    exact ha
  simp only [h1, Option.getD_some]
  cases a
  case vnone => exact absurd rfl hne
  all_goals exact dictGet_set_self _ "actor_id" _

theorem actorPromote_get_aid_absent (st : JsonBody)
    (kvs : List (String × Value)) (h : "actor_id" ∉ dictKeys kvs) :
    dictGet (actorPromote st kvs).tags "actor_id"
      = dictGet st.tags "actor_id" := by
  unfold actorPromote
  have h1 : dictGet (dictErase kvs "role") "actor_id" = Option.none :=
    dictGet_eq_none_of_not_mem _ _ (notMem_dictKeys_erase kvs "actor_id" "role" h)
  simp only [h1, Option.getD_none]
  by_cases ht : pyTruthy ((dictGet kvs "role").getD .vnone) = true
  · rw [if_pos ht]
    exact dictGet_set_other st.tags "actor_id" "role" _ (by decide)
  · rw [if_neg ht]

theorem actorPromote_tags_mem (st : JsonBody) (kvs : List (String × Value))
    (k : String) (h : k ∈ dictKeys st.tags) :
    k ∈ dictKeys (actorPromote st kvs).tags := by
  unfold actorPromote
  have h1 : k ∈ dictKeys (if pyTruthy ((dictGet kvs "role").getD .vnone)
      then dictSet st.tags "role" ((dictGet kvs "role").getD .vnone)
      else st.tags) := by
    split
    · exact mem_dictKeys_set st.tags k "role" _ h
    · exact h
  cases haid : (dictGet (dictErase kvs "role") "actor_id").getD .vnone
  case vnone => simpa [haid] using h1
  all_goals
    simp only [haid]
    exact mem_dictKeys_set _ k "actor_id" _ h1

/-! ## Claim theorems -/

/-- C6: the admission filter returns true exactly for the records whose
payload is a key-value mapping (a Python dict): any other shape — number,
string, list, or the pre-formatted string records produced by
`QueueHandler.prepare` — is rejected, so non-mapping records never pass
the gate in front of the relay queue. -/
theorem c6_filter_admits_exactly_mappings (m : RecMsg) (recName : String) :
    influxdbMonitorFilter m recName = true ↔
      ∃ kvs, m = RecMsg.val (.vdict kvs) := by
  cases m with
  | val v =>
      cases v <;> simp [influxdbMonitorFilter, loggingFilterBase]
  | strOf v => simp [influxdbMonitorFilter]

/-- C7: the value normalizer `_to_builtin` is the identity on every input
built only from `None`, booleans, numbers, strings, and nested mappings
and ordered sequences of these. -/
theorem c7_normalizer_identity_on_primitives (v : Value)
    (h : primOnly v = true) : to_builtin v = v :=
  to_builtin_primOnly_id v h

/-- Witness for C7 at a concrete primitive-only nested input. -/
theorem c7_normalizer_identity_witness :
    primOnly (.vdict [("a", .vint 1), ("b", .vlist [.vnone, .vstr "x"]),
      ("c", .vdict [("d", .vfloat 0.5), ("e", .vtuple [.vbool true])])])
        = true ∧
    to_builtin (.vdict [("a", .vint 1), ("b", .vlist [.vnone, .vstr "x"]),
      ("c", .vdict [("d", .vfloat 0.5), ("e", .vtuple [.vbool true])])])
      = .vdict [("a", .vint 1), ("b", .vlist [.vnone, .vstr "x"]),
      ("c", .vdict [("d", .vfloat 0.5), ("e", .vtuple [.vbool true])])] :=
  ⟨rfl, c7_normalizer_identity_on_primitives
    (.vdict [("a", .vint 1), ("b", .vlist [.vnone, .vstr "x"]),
      ("c", .vdict [("d", .vfloat 0.5), ("e", .vtuple [.vbool true])])]) rfl⟩

/-- C8: normalizing a mapping that contains a fixed-size numeric array
(numpy) value yields a mapping whose corresponding entry is the ordered
list of the array's numbers, in order and value (the array's
list-conversion `tolist`). -/
theorem c8_nparray_entry_flattened (kvs : List (String × Value))
    (k : String) (qs : List Rat)
    (h : dictGet kvs k = some (.npArr qs)) :
    to_builtin (.vdict kvs) = .vdict (to_builtinKVs kvs) ∧
    dictGet (to_builtinKVs kvs) k
      = some (.vlist (qs.map Value.vfloat)) := by
  refine ⟨by rw [to_builtin], ?_⟩
  rw [dictGet_to_builtinKVs, h]
  rfl

/-- Witness for C8 at a concrete mapping with a two-element array. -/
theorem c8_nparray_entry_witness :
    dictGet [("w", .npArr [1, 2]), ("x", .vint 3)] "w"
      = some (.npArr [1, 2]) ∧
    (to_builtin (.vdict [("w", .npArr [1, 2]), ("x", .vint 3)])
      = .vdict (to_builtinKVs [("w", .npArr [1, 2]), ("x", .vint 3)]) ∧
    dictGet (to_builtinKVs [("w", .npArr [1, 2]), ("x", .vint 3)]) "w"
      = some (.vlist ([(1 : Rat), 2].map Value.vfloat))) :=
  ⟨rfl, c8_nparray_entry_flattened [("w", .npArr [1, 2]), ("x", .vint 3)]
    "w" [1, 2] rfl⟩

/-- C2: the producer-facing submit entry point
(`InfluxdbMonitorHandler.emit`, which runs the filter and the queue
handler) returns normally on every record and queue state — admission
rejection and a full queue are absorbed, never raised — and the consumer
side sink writer (`InfluxdbMonitorHandlerInner.emit`) likewise never lets
an exception escape, whatever the formatter and the sink do. -/
theorem c2_submit_never_raises :
    (∀ (q : RelayQueue) (m : RecMsg) (recName : String),
      ∃ res, handlerSubmit q m recName = .ok res) ∧
    (∀ (fmt : JsonBody → RecMsg → Option (JsonBody × JsonBody))
      (beh : Nat → WriteOutcome) (st : JsonBody) (h : InnerHandler)
      (m : RecMsg), (innerHandlerEmit fmt beh st h m).raised
        = Option.none) := by
  constructor
  · intro q m recName
    unfold handlerSubmit
    by_cases hf : influxdbMonitorFilter m recName = true
    · exact ⟨queueHandlerEmit q m, by rw [if_pos hf]⟩
    · exact ⟨(q, .rejected), by rw [if_neg hf]⟩
  · intro fmt beh st h m
    exact (emitLoop_silent fmt beh m 2 st h 0 0 []).1

/-- C4 counterexample: the claim fails on the empty mapping. The record
whose payload is the empty dict passes the admission filter (the filter
only checks `isinstance(record.msg, dict)`) and, after the queue
preparation step, is formatted into a point whose `fields` mapping is
empty — so a point with empty fields does reach the sink writer. -/
theorem c4_counterexample :
    influxdbMonitorFilter (.val (.vdict [])) "learner" = true ∧
    influxdbMonitorFormat (mkInfluxdbMonitorFormatter 1 "" "host-1")
        (queueHandlerPrepare (.val (.vdict []))) =
      some ({ measurement := "cpu_ip_info",
              tags := [("ip_port", .vstr "host-1"),
                       ("type", .vstr "cpu")],
              fields := some (.vdict []) },
            { measurement := "cpu_ip_info",
              tags := [("ip_port", .vstr "host-1"),
                       ("type", .vstr "cpu")],
              fields := some (.vdict []) }) :=
  ⟨rfl, rfl⟩

/-- C4 amended: every record admitted by the filter is a mapping, and for
every record whose payload is a NON-EMPTY mapping, the point the general
formatter produces (after the queue preparation step) has a non-empty
fields mapping; the empty mapping, however, is also admitted and yields a
point with empty fields (see the counterexample). -/
theorem c4_nonempty_record_nonempty_fields (st st1 p : JsonBody)
    (kvs : List (String × Value)) (recName : String)
    (hne : kvs ≠ [])
    (hfmt : influxdbMonitorFormat st
      (queueHandlerPrepare (.val (.vdict kvs))) = some (st1, p)) :
    influxdbMonitorFilter (.val (.vdict kvs)) recName = true ∧
    ∃ f, p.fields = some (.vdict f) ∧ f ≠ [] := by
  refine ⟨by simp [influxdbMonitorFilter, loggingFilterBase], ?_⟩
  have hfp : formatPayload (queueHandlerPrepare (.val (.vdict kvs)))
      = (literalEvalElemKVs kvs).map Value.vdict := by
    simp [queueHandlerPrepare, formatPayload, literalEvalGetMessage,
      literalEvalOfStr, literalEvalElem]
  rw [influxdbMonitorFormat, hfp] at hfmt
  cases hkv : literalEvalElemKVs kvs with
  | none => rw [hkv] at hfmt; cases hfmt
  | some ws =>
      rw [hkv] at hfmt
      simp only [Option.map_some'] at hfmt
      have hp : p = { st with fields := some (to_builtin (.vdict ws)) } := by
        cases hfmt
        rfl
      refine ⟨to_builtinKVs ws, ?_, ?_⟩
      · rw [hp]
        simp [to_builtin]
      · have hlen : ws.length = kvs.length :=
          literalEvalElemKVs_length kvs ws hkv
        have : (to_builtinKVs ws).length = kvs.length := by
          rw [to_builtinKVs_length, hlen]
        intro hempty
        rw [hempty] at this
        exact hne (List.eq_nil_of_length_eq_zero this.symm)

/-- Witness for the amended C4 at the concrete record with one field. -/
theorem c4_nonempty_record_witness :
    influxdbMonitorFilter (.val (.vdict [("loss", .vfloat 0.2)])) "w"
      = true ∧
    ∃ f, ({ measurement := "cpu_ip_info",
            tags := [("ip_port", .vstr "host-1"), ("type", .vstr "cpu")],
            fields := some (.vdict [("loss", .vfloat 0.2)]) }
            : JsonBody).fields = some (.vdict f) ∧ f ≠ [] :=
  c4_nonempty_record_nonempty_fields
    (mkInfluxdbMonitorFormatter 1 "" "host-1")
    { measurement := "cpu_ip_info",
      tags := [("ip_port", .vstr "host-1"), ("type", .vstr "cpu")],
      fields := some (.vdict [("loss", .vfloat 0.2)]) }
    { measurement := "cpu_ip_info",
      tags := [("ip_port", .vstr "host-1"), ("type", .vstr "cpu")],
      fields := some (.vdict [("loss", .vfloat 0.2)]) }
    [("loss", .vfloat 0.2)] "w" (by simp) rfl

/-- C5 counterexample: tags and fields key sets are NOT disjoint in
general. The admitted record with a field named `"type"` is formatted by
the general formatter into a point whose tags contain the static key
`"type"` and whose fields also contain `"type"`. -/
theorem c5_counterexample :
    influxdbMonitorFilter (.val (.vdict [("type", .vint 5)])) "learner"
      = true ∧
    influxdbMonitorFormat (mkInfluxdbMonitorFormatter 1 "" "host-1")
        (queueHandlerPrepare (.val (.vdict [("type", .vint 5)]))) =
      some ({ measurement := "cpu_ip_info",
              tags := [("ip_port", .vstr "host-1"),
                       ("type", .vstr "cpu")],
              fields := some (.vdict [("type", .vint 5)]) },
            { measurement := "cpu_ip_info",
              tags := [("ip_port", .vstr "host-1"),
                       ("type", .vstr "cpu")],
              fields := some (.vdict [("type", .vint 5)]) }) ∧
    "type" ∈ dictKeys [("ip_port", Value.vstr "host-1"),
                       ("type", Value.vstr "cpu")] ∧
    "type" ∈ dictKeys [("type", Value.vint 5)] :=
  ⟨rfl, rfl, by simp [dictKeys], by simp [dictKeys]⟩

/-- C5 amended: what does hold is the promoted-key half of the claim: in
the actor-metrics formatter, every point's fields mapping is free of the
two promoted keys — `role` and `actor_id` are popped from the parsed
record before it is stored as fields. The general disjointness of tag and
field key sets fails (a record field named `type` or `ip_port` coexists
with the identically-named static tag, see the counterexample). -/
theorem c5_promoted_keys_removed_from_fields (st st1 p : JsonBody)
    (m : RecMsg) (h : actorMetricsFormat st m = some (st1, p)) :
    ∃ f, p.fields = some (.vdict f) ∧
      "role" ∉ dictKeys f ∧ "actor_id" ∉ dictKeys f := by
  rw [actorMetricsFormat] at h
  cases hm : literalEvalGetMessage m with
  | none => rw [hm] at h; cases h
  | some v =>
      rw [hm] at h
      cases v
      case vdict kvs =>
          have hp : p = actorPromote st kvs := by
            cases h
            rfl
          refine ⟨dictErase (dictErase kvs "role") "actor_id",
            by rw [hp, actorPromote_fields], ?_, ?_⟩
          · exact notMem_dictKeys_erase _ "role" "actor_id"
              (notMem_dictKeys_erase_self kvs "role")
          · exact notMem_dictKeys_erase_self _ "actor_id"
      all_goals exact Option.noConfusion h

/-- Witness for the amended C5 at a concrete actor-metrics record. -/
theorem c5_promoted_keys_removed_witness :
    ∃ f, (actorPromote (mkActorMetricsFormatter 1 "" "host-1")
        [("role", .vstr "attacker"), ("actor_id", .vint 7),
         ("reward", .vfloat 1.5)]).fields = some (.vdict f) ∧
      "role" ∉ dictKeys f ∧ "actor_id" ∉ dictKeys f :=
  c5_promoted_keys_removed_from_fields
    (mkActorMetricsFormatter 1 "" "host-1")
    (actorPromote (mkActorMetricsFormatter 1 "" "host-1")
      [("role", .vstr "attacker"), ("actor_id", .vint 7),
       ("reward", .vfloat 1.5)])
    (actorPromote (mkActorMetricsFormatter 1 "" "host-1")
      [("role", .vstr "attacker"), ("actor_id", .vint 7),
       ("reward", .vfloat 1.5)])
    (queueHandlerPrepare (.val (.vdict [("role", .vstr "attacker"),
      ("actor_id", .vint 7), ("reward", .vfloat 1.5)])))
    rfl

/-- C3 counterexample: the role promotion is guarded by Python truthiness
(`if role:`), not by key presence. The record `{"role": "", "reward": 1}`
contains the key `role`, yet after formatting the output tags of a fresh
actor formatter do not map `"role"` at all (the empty string is falsy);
the entry is still removed from the fields. -/
theorem c3_counterexample :
    actorMetricsFormat (mkActorMetricsFormatter 1 "" "host-1")
        (queueHandlerPrepare (.val (.vdict [("role", .vstr ""),
          ("reward", .vint 1)]))) =
      some ({ measurement := "actor_metrics",
              tags := [("ip_port", .vstr "host-1"), ("type", .vstr "cpu")],
              fields := some (.vdict [("reward", .vint 1)]) },
            { measurement := "actor_metrics",
              tags := [("ip_port", .vstr "host-1"), ("type", .vstr "cpu")],
              fields := some (.vdict [("reward", .vint 1)]) }) ∧
    dictGet [("ip_port", Value.vstr "host-1"), ("type", Value.vstr "cpu")]
      "role" = Option.none :=
  ⟨rfl, rfl⟩

/-- C3 amended: for every record parsed to a dict `d` by the actor-metrics
formatter, both `role` and `actor_id` are removed from the fields; the
output tags map `"role"` to the record's role value when that value is
TRUTHY (not merely present), and map `"actor_id"` to the string form of
the record's actor_id when it is present and not `None`. The spec's
concrete example holds: `{"role": "attacker", "actor_id": 7,
"reward": 1.5}` yields tags with `role="attacker"`, `actor_id="7"` and
fields `{"reward": 1.5}`. -/
theorem c3_actor_promotion :
    (∀ (st : JsonBody) (m : RecMsg) (d : List (String × Value)),
      literalEvalGetMessage m = some (.vdict d) →
      ∃ p, actorMetricsFormat st m = some (p, p) ∧
        (∃ f, p.fields = some (.vdict f) ∧ "role" ∉ dictKeys f ∧
          "actor_id" ∉ dictKeys f) ∧
        (∀ r, dictGet d "role" = some r → pyTruthy r = true →
          dictGet p.tags "role" = some r) ∧
        (∀ a, dictGet d "actor_id" = some a → a ≠ .vnone →
          dictGet p.tags "actor_id" = some (.vstr (pyStr a)))) ∧
    actorMetricsFormat (mkActorMetricsFormatter 1 "" "host-1")
        (queueHandlerPrepare (.val (.vdict [("role", .vstr "attacker"),
          ("actor_id", .vint 7), ("reward", .vfloat 1.5)]))) =
      some ({ measurement := "actor_metrics",
              tags := [("ip_port", .vstr "host-1"), ("type", .vstr "cpu"),
                       ("role", .vstr "attacker"),
                       ("actor_id", .vstr "7")],
              fields := some (.vdict [("reward", .vfloat 1.5)]) },
            { measurement := "actor_metrics",
              tags := [("ip_port", .vstr "host-1"), ("type", .vstr "cpu"),
                       ("role", .vstr "attacker"),
                       ("actor_id", .vstr "7")],
              fields := some (.vdict [("reward", .vfloat 1.5)]) }) := by
  constructor
  · intro st m d hm
    refine ⟨actorPromote st d, by rw [actorMetricsFormat, hm], ?_, ?_, ?_⟩
    · exact ⟨dictErase (dictErase d "role") "actor_id",
        actorPromote_fields st d,
        notMem_dictKeys_erase _ "role" "actor_id"
          (notMem_dictKeys_erase_self d "role"),
        notMem_dictKeys_erase_self _ "actor_id"⟩
    · intro r hr ht
      exact actorPromote_get_role_truthy st d r hr ht
    · intro a ha hne
      exact actorPromote_get_aid st d a ha hne
  · rfl

/-- Witness for the amended C3 at the spec's concrete actor record. -/
theorem c3_actor_promotion_witness :
    ∃ p, actorMetricsFormat (mkActorMetricsFormatter 1 "" "host-1")
        (queueHandlerPrepare (.val (.vdict [("role", .vstr "attacker"),
          ("actor_id", .vint 7), ("reward", .vfloat 1.5)]))) = some (p, p) ∧
      (∃ f, p.fields = some (.vdict f) ∧ "role" ∉ dictKeys f ∧
        "actor_id" ∉ dictKeys f) ∧
      (∀ r, dictGet [("role", .vstr "attacker"), ("actor_id", .vint 7),
        ("reward", .vfloat 1.5)] "role" = some r → pyTruthy r = true →
        dictGet p.tags "role" = some r) ∧
      (∀ a, dictGet [("role", .vstr "attacker"), ("actor_id", .vint 7),
        ("reward", .vfloat 1.5)] "actor_id" = some a → a ≠ .vnone →
        dictGet p.tags "actor_id" = some (.vstr (pyStr a))) :=
  c3_actor_promotion.1 (mkActorMetricsFormatter 1 "" "host-1")
    (queueHandlerPrepare (.val (.vdict [("role", .vstr "attacker"),
      ("actor_id", .vint 7), ("reward", .vfloat 1.5)])))
    [("role", .vstr "attacker"), ("actor_id", .vint 7),
     ("reward", .vfloat 1.5)] rfl

/-- C9: the general formatter built over a cpu (resp. gpu) probe and
hostname `host-1` formats the admitted record `{"loss": 0.2}` into exactly
the point with measurement `cpu_ip_info` (resp. `gpu_ip_info`), tags
`ip_port=host-1`, `type=cpu|gpu`, and fields `{"loss": 0.2}`; and for
every record, `format` leaves the measurement and the tags it fixed at
construction unchanged. -/
theorem c9_general_format :
    influxdbMonitorFormat (mkInfluxdbMonitorFormatter 1 "" "host-1")
        (queueHandlerPrepare (.val (.vdict [("loss", .vfloat 0.2)]))) =
      some ({ measurement := "cpu_ip_info",
              tags := [("ip_port", .vstr "host-1"), ("type", .vstr "cpu")],
              fields := some (.vdict [("loss", .vfloat 0.2)]) },
            { measurement := "cpu_ip_info",
              tags := [("ip_port", .vstr "host-1"), ("type", .vstr "cpu")],
              fields := some (.vdict [("loss", .vfloat 0.2)]) }) ∧
    influxdbMonitorFormat
        (mkInfluxdbMonitorFormatter 0 "GPU 0: NVIDIA" "host-1")
        (queueHandlerPrepare (.val (.vdict [("loss", .vfloat 0.2)]))) =
      some ({ measurement := "gpu_ip_info",
              tags := [("ip_port", .vstr "host-1"), ("type", .vstr "gpu")],
              fields := some (.vdict [("loss", .vfloat 0.2)]) },
            { measurement := "gpu_ip_info",
              tags := [("ip_port", .vstr "host-1"), ("type", .vstr "gpu")],
              fields := some (.vdict [("loss", .vfloat 0.2)]) }) ∧
    (∀ (st : JsonBody) (m : RecMsg) (st1 p : JsonBody),
      influxdbMonitorFormat st m = some (st1, p) →
      p.measurement = st.measurement ∧ p.tags = st.tags ∧
      st1.measurement = st.measurement ∧ st1.tags = st.tags) := by
  refine ⟨rfl, rfl, ?_⟩
  intro st m st1 p h
  rw [influxdbMonitorFormat] at h
  cases hfp : formatPayload m with
  | none => rw [hfp] at h; cases h
  | some d =>
      rw [hfp] at h
      injection h with h2
      injection h2 with ha hb
      rw [← ha, ← hb]
      exact ⟨rfl, rfl, rfl, rfl⟩

/-- Witness for C9's construction-time-fixed conjunct at a concrete
formatter and record. -/
theorem c9_general_format_witness :
    ({ measurement := "cpu_ip_info",
       tags := [("ip_port", .vstr "host-1"), ("type", .vstr "cpu")],
       fields := some (.vdict [("loss", .vfloat 0.2)]) }
        : JsonBody).measurement
      = (mkInfluxdbMonitorFormatter 1 "" "host-1").measurement ∧
    ({ measurement := "cpu_ip_info",
       tags := [("ip_port", .vstr "host-1"), ("type", .vstr "cpu")],
       fields := some (.vdict [("loss", .vfloat 0.2)]) }
        : JsonBody).tags
      = (mkInfluxdbMonitorFormatter 1 "" "host-1").tags ∧
    ({ measurement := "cpu_ip_info",
       tags := [("ip_port", .vstr "host-1"), ("type", .vstr "cpu")],
       fields := some (.vdict [("loss", .vfloat 0.2)]) }
        : JsonBody).measurement
      = (mkInfluxdbMonitorFormatter 1 "" "host-1").measurement ∧
    ({ measurement := "cpu_ip_info",
       tags := [("ip_port", .vstr "host-1"), ("type", .vstr "cpu")],
       fields := some (.vdict [("loss", .vfloat 0.2)]) }
        : JsonBody).tags
      = (mkInfluxdbMonitorFormatter 1 "" "host-1").tags :=
  c9_general_format.2.2 (mkInfluxdbMonitorFormatter 1 "" "host-1")
    (queueHandlerPrepare (.val (.vdict [("loss", .vfloat 0.2)])))
    { measurement := "cpu_ip_info",
      tags := [("ip_port", .vstr "host-1"), ("type", .vstr "cpu")],
      fields := some (.vdict [("loss", .vfloat 0.2)]) }
    { measurement := "cpu_ip_info",
      tags := [("ip_port", .vstr "host-1"), ("type", .vstr "cpu")],
      fields := some (.vdict [("loss", .vfloat 0.2)]) }
    rfl

/-- Inversion for `actorMetricsFormat`: a successful format call means the
record parsed to a dict and both returned bodies are the promotion body's
result. -/
theorem actorMetricsFormat_inv (st : JsonBody) (m : RecMsg)
    (st1 p : JsonBody) (h : actorMetricsFormat st m = some (st1, p)) :
    ∃ d, literalEvalGetMessage m = some (.vdict d) ∧
      st1 = actorPromote st d ∧ p = actorPromote st d := by
  rw [actorMetricsFormat] at h
  cases hm : literalEvalGetMessage m with
  | none => rw [hm] at h; cases h
  | some v =>
      rw [hm] at h
      cases v
      case vdict kvs =>
          injection h with h2
          injection h2 with ha hb
          exact ⟨kvs, rfl, ha.symm, hb.symm⟩
      all_goals exact Option.noConfusion h

/-- C10: promoted tags persist across invocations of the actor-metrics
formatter, which mutates one shared `_json_body`. If a first record
promotes a truthy role (resp. a non-`None` actor_id) and a second record
contains no `role` (resp. no `actor_id`) key, the point produced for the
second record still carries the first record's promoted value; and no
format call ever removes a tag key that was present before it. -/
theorem c10_promoted_tags_persist :
    (∀ (st : JsonBody) (m1 m2 : RecMsg) (d1 d2 : List (String × Value))
       (p1 p2 : JsonBody) (r : Value),
      literalEvalGetMessage m1 = some (.vdict d1) →
      literalEvalGetMessage m2 = some (.vdict d2) →
      actorMetricsFormat st m1 = some (p1, p1) →
      actorMetricsFormat p1 m2 = some (p2, p2) →
      dictGet d1 "role" = some r → pyTruthy r = true →
      "role" ∉ dictKeys d2 →
      dictGet p2.tags "role" = some r) ∧
    (∀ (st : JsonBody) (m1 m2 : RecMsg) (d1 d2 : List (String × Value))
       (p1 p2 : JsonBody) (a : Value),
      literalEvalGetMessage m1 = some (.vdict d1) →
      literalEvalGetMessage m2 = some (.vdict d2) →
      actorMetricsFormat st m1 = some (p1, p1) →
      actorMetricsFormat p1 m2 = some (p2, p2) →
      dictGet d1 "actor_id" = some a → a ≠ .vnone →
      "actor_id" ∉ dictKeys d2 →
      dictGet p2.tags "actor_id" = some (.vstr (pyStr a))) ∧
    (∀ (st : JsonBody) (m : RecMsg) (st1 p : JsonBody) (k : String),
      actorMetricsFormat st m = some (st1, p) →
      k ∈ dictKeys st.tags → k ∈ dictKeys p.tags) := by
  refine ⟨?_, ?_, ?_⟩
  · intro st m1 m2 d1 d2 p1 p2 r hm1 hm2 hf1 hf2 hr ht hd2
    obtain ⟨e1, he1, _, hp1⟩ := actorMetricsFormat_inv st m1 p1 p1 hf1
    obtain ⟨e2, he2, _, hp2⟩ := actorMetricsFormat_inv p1 m2 p2 p2 hf2
    rw [he1] at hm1
    rw [he2] at hm2
    injection hm1 with hm1v
    injection hm2 with hm2v
    injection hm1v with hm1d
    injection hm2v with hm2d
    subst hm1d
    subst hm2d
    rw [hp2, actorPromote_get_role_absent p1 e2 hd2, hp1]
    exact actorPromote_get_role_truthy st e1 r hr ht
  · intro st m1 m2 d1 d2 p1 p2 a hm1 hm2 hf1 hf2 ha hne hd2
    obtain ⟨e1, he1, _, hp1⟩ := actorMetricsFormat_inv st m1 p1 p1 hf1
    obtain ⟨e2, he2, _, hp2⟩ := actorMetricsFormat_inv p1 m2 p2 p2 hf2
    rw [he1] at hm1
    rw [he2] at hm2
    injection hm1 with hm1v
    injection hm2 with hm2v
    injection hm1v with hm1d
    injection hm2v with hm2d
    subst hm1d
    subst hm2d
    rw [hp2, actorPromote_get_aid_absent p1 e2 hd2, hp1]
    exact actorPromote_get_aid st e1 a ha hne
  · intro st m st1 p k hf hk
    obtain ⟨d, _, _, hp⟩ := actorMetricsFormat_inv st m st1 p hf
    rw [hp]
    exact actorPromote_tags_mem st d k hk

/-- Witness for C10: a concrete first record promotes
`role="attacker"` / `actor_id=7`, a second record without those keys
still reports `role="attacker"` in its point's tags. -/
theorem c10_promoted_tags_witness :
    dictGet (actorPromote
      (actorPromote (mkActorMetricsFormatter 1 "" "host-1")
        [("role", .vstr "attacker"), ("actor_id", .vint 7),
         ("reward", .vfloat 1.5)])
      [("reward", .vint 2)]).tags "role" = some (.vstr "attacker") :=
  c10_promoted_tags_persist.1 (mkActorMetricsFormatter 1 "" "host-1")
    (queueHandlerPrepare (.val (.vdict [("role", .vstr "attacker"),
      ("actor_id", .vint 7), ("reward", .vfloat 1.5)])))
    (queueHandlerPrepare (.val (.vdict [("reward", .vint 2)])))
    [("role", .vstr "attacker"), ("actor_id", .vint 7),
     ("reward", .vfloat 1.5)]
    [("reward", .vint 2)]
    (actorPromote (mkActorMetricsFormatter 1 "" "host-1")
      [("role", .vstr "attacker"), ("actor_id", .vint 7),
       ("reward", .vfloat 1.5)])
    (actorPromote
      (actorPromote (mkActorMetricsFormatter 1 "" "host-1")
        [("role", .vstr "attacker"), ("actor_id", .vint 7),
         ("reward", .vfloat 1.5)])
      [("reward", .vint 2)])
    (.vstr "attacker") rfl rfl rfl rfl rfl rfl (by simp [dictKeys])

/-- C1 counterexample: with a connection that always fails, `emit` makes
exactly 2 write attempts and then falls out of the loop returning `None`:
no `WriteError` (nor any other error value) is returned to the caller,
contradicting the claim's "returns a WriteError carrying the last
failure's cause"; the causes go only to the local diagnostics. -/
theorem c1_counterexample :
    (innerHandlerEmit influxdbMonitorFormat
        (fun _ => .fail "connection refused")
        (mkInfluxdbMonitorFormatter 1 "" "host-1")
        { ip := "127.0.0.1", port := "8086", database := "monitordb",
          clientGen := 1 }
        (queueHandlerPrepare
          (.val (.vdict [("loss", .vfloat 0.2)])))).writeAttempts = 2 ∧
    (innerHandlerEmit influxdbMonitorFormat
        (fun _ => .fail "connection refused")
        (mkInfluxdbMonitorFormatter 1 "" "host-1")
        { ip := "127.0.0.1", port := "8086", database := "monitordb",
          clientGen := 1 }
        (queueHandlerPrepare
          (.val (.vdict [("loss", .vfloat 0.2)])))).returnedErr
      = Option.none ∧
    (innerHandlerEmit influxdbMonitorFormat
        (fun _ => .fail "connection refused")
        (mkInfluxdbMonitorFormatter 1 "" "host-1")
        { ip := "127.0.0.1", port := "8086", database := "monitordb",
          clientGen := 1 }
        (queueHandlerPrepare
          (.val (.vdict [("loss", .vfloat 0.2)])))).delivered = false :=
  ⟨rfl, rfl, rfl⟩

/-- C1 amended: for any sink writer, `emit` makes at most 2 write attempts
and never raises nor returns an error value to its caller; and when the
record formats to a dict-fielded point and the connection always fails,
`emit` makes exactly 2 attempts (the second after recreating the client),
prints each failure's cause — the last one included — to local
diagnostics, recreates the client twice, delivers nothing, does not
requeue anything, and returns `None`. -/
theorem c1_retry_bounded_and_silent (st : JsonBody) (h : InnerHandler)
    (m : RecMsg) (d : Value) (f : List (String × Value))
    (beh : Nat → WriteOutcome) (err : Nat → String)
    (hbeh : ∀ n, beh n = .fail (err n))
    (hd : formatPayload m = some d)
    (hf : to_builtin d = .vdict f) :
    (∀ (fmt : JsonBody → RecMsg → Option (JsonBody × JsonBody))
       (beh2 : Nat → WriteOutcome) (st2 : JsonBody) (h2 : InnerHandler)
       (m2 : RecMsg),
      (innerHandlerEmit fmt beh2 st2 h2 m2).writeAttempts ≤ 2) ∧
    innerHandlerEmit influxdbMonitorFormat beh st h m =
      { fmtState := { st with fields := some (.vdict f) },
        handler := { h with clientGen := h.clientGen + 2 },
        writeAttempts := 2, recreates := 2,
        diag := [.attemptLine h.ip h.port h.database st.measurement st.tags
                   (dictKeys f),
                 .errLine (err 0),
                 .attemptLine h.ip h.port h.database st.measurement st.tags
                   (dictKeys f),
                 .errLine (err 1)],
        delivered := false, raised := Option.none,
        returnedErr := Option.none } := by
  constructor
  · intro fmt beh2 st2 h2 m2
    exact (emitLoop_silent fmt beh2 m2 2 st2 h2 0 0 []).2.2
  · have hfmt : ∀ s : JsonBody, influxdbMonitorFormat s m
        = some ({ s with fields := some (.vdict f) },
                { s with fields := some (.vdict f) }) := by
      intro s
      rw [influxdbMonitorFormat, hd]
      show some ({ s with fields := some (to_builtin d) },
                 { s with fields := some (to_builtin d) })
        = some ({ s with fields := some (.vdict f) },
                { s with fields := some (.vdict f) })
      rw [hf]
    simp only [innerHandlerEmit, emitLoop, hfmt, fieldKeysOf, hbeh,
      List.nil_append, List.append_assoc, List.cons_append,
      List.singleton_append, List.append_nil]

/-- Witness for the amended C1: the concrete always-failing sink trace. -/
theorem c1_retry_witness :
    (∀ (fmt : JsonBody → RecMsg → Option (JsonBody × JsonBody))
       (beh2 : Nat → WriteOutcome) (st2 : JsonBody) (h2 : InnerHandler)
       (m2 : RecMsg),
      (innerHandlerEmit fmt beh2 st2 h2 m2).writeAttempts ≤ 2) ∧
    innerHandlerEmit influxdbMonitorFormat
        (fun _ => .fail "connection refused")
        (mkInfluxdbMonitorFormatter 1 "" "host-1")
        { ip := "127.0.0.1", port := "8086", database := "monitordb",
          clientGen := 1 }
        (queueHandlerPrepare (.val (.vdict [("loss", .vfloat 0.2)]))) =
      { fmtState := { measurement := "cpu_ip_info",
                      tags := [("ip_port", .vstr "host-1"),
                               ("type", .vstr "cpu")],
                      fields := some (.vdict [("loss", .vfloat 0.2)]) },
        handler := { ip := "127.0.0.1", port := "8086",
                     database := "monitordb", clientGen := 3 },
        writeAttempts := 2, recreates := 2,
        diag := [.attemptLine "127.0.0.1" "8086" "monitordb" "cpu_ip_info"
                   [("ip_port", .vstr "host-1"), ("type", .vstr "cpu")]
                   ["loss"],
                 .errLine "connection refused",
                 .attemptLine "127.0.0.1" "8086" "monitordb" "cpu_ip_info"
                   [("ip_port", .vstr "host-1"), ("type", .vstr "cpu")]
                   ["loss"],
                 .errLine "connection refused"],
        delivered := false, raised := Option.none,
        returnedErr := Option.none } :=
  c1_retry_bounded_and_silent
    (mkInfluxdbMonitorFormatter 1 "" "host-1")
    { ip := "127.0.0.1", port := "8086", database := "monitordb",
      clientGen := 1 }
    (queueHandlerPrepare (.val (.vdict [("loss", .vfloat 0.2)])))
    (.vdict [("loss", .vfloat 0.2)]) [("loss", .vfloat 0.2)]
    (fun _ => .fail "connection refused")
    (fun _ => "connection refused")
    (fun _ => rfl) rfl rfl
